import Mathlib

/-!
Shallow embedding of `src/transactions_tool.py` (Financial Transactions
Summary Tool): the cleaning pipeline `load_and_clean_transactions` and the
four aggregators `generate_overall_financial_summary`,
`generate_monthly_summary_report`, `generate_customer_summary`,
`generate_top_customers_report`.

Modelling decisions, each read off the pandas code:
* A parsed CSV table is a list of raw rows.  `pd.to_datetime(col,
  errors="coerce")` turns an unparsable or missing date into `NaT`; we model
  the date column after this conversion as `Option Date` (`none` = `NaT`).
* A missing numeric cell (`NaN`) is `none`; present amounts are rationals
  (exact arithmetic stands in for float arithmetic, as the claims are about
  which rows are summed, not float rounding).
* `df["type"].astype(str)` stringifies the column first, so a missing value
  (`NaN`) becomes the *string* "nan"; afterwards `.str.lower().str.strip()`
  lower-cases and trims.  Hence the normalized type column never contains a
  null.
* `df.dropna(subset=["date", "amount", "type"])` keeps a row iff the three
  cells are non-null at that point.
* `groupby(key)` buckets by exact key equality, silently drops rows whose
  key is null, and lists the group keys in ascending sorted order.
  `Series.count` inside a group counts non-null values; `sum` of an empty
  selection is `0`; `mean`/`max`/`min` of an empty series are `NaN`,
  modelled as `none`.
* `sort_values(by, ascending=False)` with the default quicksort computes a
  stable ascending argsort and reverses the indexer (pandas `nargsort`; for
  the small frames of interest introsort degenerates to stable insertion
  sort), so we model it as a stable ascending insertion sort followed by
  `reverse`; ties therefore come out in reversed input order.
* `df.head(n)` is the python slice `df[:n]`: first `n` rows when `n ≥ 0`,
  all but the last `|n|` rows when `n < 0`.
* `generate_monthly_summary_report` executes `df["year_month"] = ...` on its
  argument, adding a column to the caller's dataframe in place.  Each
  aggregator is therefore modelled as `CleanedDF → CleanedDF × result`, the
  first component being the state of the argument dataframe after the call;
  `CleanedDF.hasYearMonth` records whether the `year_month` column exists.
-/

/-- A calendar date, as produced by a successful `pd.to_datetime` parse. -/
structure Date where
  year : Nat
  month : Nat
  day : Nat
deriving DecidableEq, Repr

/-- A calendar year-month, the value of `pandas.Period` with frequency M. -/
structure YearMonth where
  year : Nat
  month : Nat
deriving DecidableEq, Repr

/-- One row of the raw CSV table after `pd.read_csv`, with the date column
shown after the `to_datetime(..., errors="coerce")` conversion:
`none` is `NaT`/`NaN` (missing or unparsable). -/
structure RawRow where
  date : Option Date
  amount : Option Rat
  typ : Option String
  customer_id : Option String
deriving DecidableEq, Repr

/-- One row of the cleaned dataframe: `date` and `amount` are non-null
(guaranteed by `dropna`), `typ` is the normalized type string, and
`customer_id` may still be null (cleaning does not check it). -/
structure CleanedRow where
  date : Date
  amount : Rat
  typ : String
  customer_id : Option String
deriving DecidableEq, Repr

/-- The cleaned dataframe: its rows plus whether the `year_month` column
(added in place by `generate_monthly_summary_report`) is present. -/
structure CleanedDF where
  rows : List CleanedRow
  hasYearMonth : Bool
deriving DecidableEq, Repr

/-- `df["type"].astype(str).str.lower().str.strip()` applied to one cell:
a null cell is first stringified by `astype(str)` to the string "nan",
then lower-cased and trimmed. -/
def normalizeType (t : Option String) : String :=
  match t with
  | none => "nan"
  | some s => s.toLower.trim

/-- The per-row effect of steps 2-4 of `load_and_clean_transactions`:
convert the date, normalize the type, then `dropna` on
`["date", "amount", "type"]`.  After `astype(str)` the type column has no
nulls, so only `date` and `amount` can disqualify the row. -/
def cleanRow (r : RawRow) : Option CleanedRow :=
  match r.date, r.amount with
  | some d, some a => some ⟨d, a, normalizeType r.typ, r.customer_id⟩
  | _, _ => none

/-- `load_and_clean_transactions`: clean every row of the loaded table and
keep those that survive `dropna`.  The returned dataframe does not yet have
a `year_month` column. -/
def load_and_clean_transactions (raw : List RawRow) : CleanedDF :=
  ⟨raw.filterMap cleanRow, false⟩

/-- The dictionary returned by `generate_overall_financial_summary`.
`avg_amount`, `max_amount` and `min_amount` are `none` exactly when pandas
returns `NaN` (empty dataframe). -/
structure OverallSummary where
  total_transactions : Nat
  total_credit : Rat
  total_debit : Rat
  net_amount : Rat
  avg_amount : Option Rat
  max_amount : Option Rat
  min_amount : Option Rat
deriving DecidableEq, Repr

/-- `generate_overall_financial_summary`.  It only reads `df`, so the
dataframe comes back unchanged. -/
def generate_overall_financial_summary (df : CleanedDF) :
    CleanedDF × OverallSummary :=
  let amounts := df.rows.map (fun r => r.amount)
  (df,
    { total_transactions := df.rows.length
      total_credit := (amounts.filter (fun a => 0 < a)).sum
      total_debit := (amounts.filter (fun a => a < 0)).sum
      net_amount := amounts.sum
      avg_amount :=
        if amounts.length = 0 then none
        else some (amounts.sum / (amounts.length : Rat))
      max_amount := amounts.max?
      min_amount := amounts.min? })

/-- `df["date"].dt.to_period("M")` for one date: truncate to year-month. -/
def to_period_M (d : Date) : YearMonth := ⟨d.year, d.month⟩

/-- Chronological order on year-months, the ascending key order that
`groupby` produces on a `PeriodIndex`. -/
def ymLE (a b : YearMonth) : Prop :=
  a.year < b.year ∨ (a.year = b.year ∧ a.month ≤ b.month)

instance : DecidableRel ymLE := fun a b => by
  unfold ymLE; exact inferInstance

/-- One row of the monthly summary dataframe. -/
structure MonthlySummaryRow where
  total_credit : Rat
  total_debit : Rat
  transaction_count : Nat
  net_amount : Rat
deriving DecidableEq, Repr

/-- The distinct `year_month` group keys, in the ascending (chronological)
order `groupby` lists them.  Only months present in the data appear. -/
def monthKeys (rows : List CleanedRow) : List YearMonth :=
  List.insertionSort ymLE ((rows.map (fun r => to_period_M r.date)).dedup)

/-- `generate_monthly_summary_report`: writes the derived `year_month`
column into the caller's dataframe (`df["year_month"] = ...`), then groups
by it and reduces each bucket.  `transaction_count` is
`("amount", "count")`, the number of non-null amounts in the bucket, which
in the cleaned data is the bucket size. -/
def generate_monthly_summary_report (df : CleanedDF) :
    CleanedDF × List (YearMonth × MonthlySummaryRow) :=
  ({ df with hasYearMonth := true },
    (monthKeys df.rows).map (fun m =>
      let amts :=
        (df.rows.filter (fun r => to_period_M r.date = m)).map
          (fun r => r.amount)
      (m,
        { total_credit := (amts.filter (fun a => 0 < a)).sum
          total_debit := (amts.filter (fun a => a < 0)).sum
          transaction_count := amts.length
          net_amount := amts.sum })))

/-- One row of the customer summary dataframe. -/
structure CustomerStats where
  total_spent : Rat
  transaction_count : Nat
  avg_amount : Rat
deriving DecidableEq, Repr

/-- The distinct non-null `customer_id` group keys in ascending order:
`groupby("customer_id")` silently drops rows whose key is null and sorts
the remaining keys. -/
def customerKeys (rows : List CleanedRow) : List String :=
  List.insertionSort (fun a b => a ≤ b)
    ((rows.filterMap (fun r => r.customer_id)).dedup)

/-- `generate_customer_summary`: group the amounts by `customer_id` and
take sum, count and mean per group.  Rows with a null `customer_id` belong
to no group.  Only reads `df`. -/
def generate_customer_summary (df : CleanedDF) :
    CleanedDF × List (String × CustomerStats) :=
  (df,
    (customerKeys df.rows).map (fun c =>
      let amts :=
        (df.rows.filter (fun r => r.customer_id = some c)).map
          (fun r => r.amount)
      (c,
        { total_spent := amts.sum
          transaction_count := amts.length
          avg_amount := amts.sum / (amts.length : Rat) })))

/-- One row of the top-customers table after `reset_index()`. -/
structure TopCustomerRow where
  customer_id : String
  total_spent : Rat
  transaction_count : Nat
  avg_amount : Rat
deriving DecidableEq, Repr

/-- Ascending comparison on `total_spent`, the key passed to
`sort_values`. -/
def spentLE (a b : String × CustomerStats) : Prop :=
  a.2.total_spent ≤ b.2.total_spent

instance : DecidableRel spentLE := fun a b => by
  unfold spentLE; exact inferInstance

/-- `sort_values("total_spent", ascending=False)`: pandas `nargsort`
computes a stable ascending argsort and reverses the indexer, so tied rows
come out in reversed input order. -/
def sortValuesDesc (l : List (String × CustomerStats)) :
    List (String × CustomerStats) :=
  (List.insertionSort spentLE l).reverse

/-- `df.head(n)`, i.e. the python slice `df[:n]`: the first `n` rows for
`n ≥ 0`, everything but the last `|n|` rows for `n < 0`. -/
def dfHead (n : Int) (l : List (String × CustomerStats)) :
    List (String × CustomerStats) :=
  if 0 ≤ n then l.take n.toNat else l.take (l.length - (-n).toNat)

/-- `generate_top_customers_report`: sort the customer summary by
`total_spent` descending, take `head(n)`, and `reset_index()` the result
into rows carrying the customer id. -/
def generate_top_customers_report
    (customer_summary : List (String × CustomerStats)) (n : Int) :
    List TopCustomerRow :=
  (dfHead n (sortValuesDesc customer_summary)).map (fun p =>
    ⟨p.1, p.2.total_spent, p.2.transaction_count, p.2.avg_amount⟩)

/-! ### Helper lemmas -/

/-- A list sum splits into the sum of its strictly positive entries and the
sum of its strictly negative entries; zeros contribute to neither. -/
theorem sum_eq_pos_add_neg (l : List Rat) :
    l.sum = (l.filter (fun a => 0 < a)).sum
      + (l.filter (fun a => a < 0)).sum := by
  induction l with
  | nil => simp
  | cons a t ih =>
    by_cases h1 : 0 < a
    · have h2 : ¬ a < 0 := by linarith
      simp only [List.sum_cons, List.filter_cons, decide_eq_true_eq]
      rw [if_pos h1, if_neg h2, List.sum_cons, ih]
      ring
    · by_cases h2 : a < 0
      · simp only [List.sum_cons, List.filter_cons, decide_eq_true_eq]
        rw [if_neg h1, if_pos h2, List.sum_cons, ih]
        ring
      · have h3 : a = 0 := le_antisymm (not_lt.mp h1) (not_lt.mp h2)
        subst h3
        simp only [List.sum_cons, List.filter_cons, decide_eq_true_eq]
        rw [if_neg h1, if_neg h2, ih]
        ring

/-- Summing the constant 1 over a list counts its elements. -/
theorem sum_map_const_one {α : Type} (l : List α) :
    (l.map (fun _ => (1 : Nat))).sum = l.length := by
  induction l with
  | nil => rfl
  | cons a t ih =>
    simp only [List.map_cons, List.sum_cons, List.length_cons, ih]
    omega

/-- Over a duplicate-free key list containing `c₀`, summing an indicator
that pays `b` at `c₀` and `0` elsewhere yields `b`. -/
theorem sum_map_single {κ β : Type} [DecidableEq κ] [AddCommMonoid β]
    (keys : List κ) (hnd : keys.Nodup) (c₀ : κ) (hmem : c₀ ∈ keys) (b : β) :
    (keys.map (fun c => if c₀ = c then b else 0)).sum = b := by
  induction keys with
  | nil => simp at hmem
  | cons k ks ih =>
    rcases List.mem_cons.mp hmem with h | h
    · subst h
      have hz : (ks.map (fun c => if c₀ = c then b else 0)).sum = 0 := by
        apply List.sum_eq_zero
        intro x hx
        obtain ⟨c, hc, rfl⟩ := List.mem_map.mp hx
        have hne : c₀ ≠ c := by
          rintro rfl
          exact (List.nodup_cons.mp hnd).1 hc
        simp [hne]
      simp [hz]
    · have hne : c₀ ≠ k := by
        rintro rfl
        exact (List.nodup_cons.mp hnd).1 h
      have ih2 := ih (List.nodup_cons.mp hnd).2 h
      simp [hne, ih2]

/-- Partition lemma for an optional grouping key: summing a per-bucket
reduction over a duplicate-free key list that covers every non-null key
equals the reduction over the rows whose key is non-null.  Rows with a null
key are counted in no bucket. -/
theorem sum_groups {α κ β : Type} [DecidableEq κ] [AddCommMonoid β]
    (key : α → Option κ) (val : α → β) (keys : List κ) (hnd : keys.Nodup)
    (rows : List α)
    (hcov : ∀ r ∈ rows, ∀ c, key r = some c → c ∈ keys) :
    (keys.map (fun c =>
        ((rows.filter (fun r => key r = some c)).map val).sum)).sum
      = ((rows.filter (fun r => (key r).isSome)).map val).sum := by
  induction rows with
  | nil => simp
  | cons r rest ih =>
    have hcov' : ∀ x ∈ rest, ∀ c, key x = some c → c ∈ keys :=
      fun x hx => hcov x (List.mem_cons_of_mem _ hx)
    cases hk : key r with
    | none =>
      have hfilter : ∀ c : κ,
          (r :: rest).filter (fun x => key x = some c)
            = rest.filter (fun x => key x = some c) := by
        intro c
        simp [List.filter_cons, hk]
      have hfilter2 : (r :: rest).filter (fun x => (key x).isSome)
          = rest.filter (fun x => (key x).isSome) := by
        simp [List.filter_cons, hk]
      simp only [hfilter, hfilter2]
      exact ih hcov'
    | some c₀ =>
      have hc₀ : c₀ ∈ keys := hcov r (List.mem_cons_self _ _) c₀ hk
      have step : ∀ c : κ,
          (((r :: rest).filter (fun x => key x = some c)).map val).sum
            = (if c₀ = c then val r else 0)
              + ((rest.filter (fun x => key x = some c)).map val).sum := by
        intro c
        by_cases h : c₀ = c
        · subst h
          simp [List.filter_cons, hk]
        · have hne : ¬ (key r = some c) := by simp [hk, h]
          simp [List.filter_cons, hne, h]
      have hmapeq :
          (keys.map (fun c =>
              (((r :: rest).filter (fun x => key x = some c)).map val).sum))
            = keys.map (fun c =>
                (if c₀ = c then val r else 0)
                  + ((rest.filter (fun x => key x = some c)).map val).sum) :=
        List.map_congr_left (fun c _ => step c)
      rw [hmapeq, List.sum_map_add, sum_map_single keys hnd c₀ hc₀,
        ih hcov']
      have hfilter2 : (r :: rest).filter (fun x => (key x).isSome)
          = r :: rest.filter (fun x => (key x).isSome) := by
        simp [List.filter_cons, hk]
      rw [hfilter2]
      simp

/-- Partition lemma for a total grouping key: summing a per-bucket
reduction over a duplicate-free covering key list equals the reduction over
all rows. -/
theorem sum_groups_total {α κ β : Type} [DecidableEq κ] [AddCommMonoid β]
    (key : α → κ) (val : α → β) (keys : List κ) (hnd : keys.Nodup)
    (rows : List α) (hcov : ∀ r ∈ rows, key r ∈ keys) :
    (keys.map (fun c =>
        ((rows.filter (fun r => key r = c)).map val).sum)).sum
      = (rows.map val).sum := by
  induction rows with
  | nil => simp
  | cons r rest ih =>
    have hcov' : ∀ x ∈ rest, key x ∈ keys :=
      fun x hx => hcov x (List.mem_cons_of_mem _ hx)
    have hc₀ : key r ∈ keys := hcov r (List.mem_cons_self _ _)
    have step : ∀ c : κ,
        (((r :: rest).filter (fun x => key x = c)).map val).sum
          = (if key r = c then val r else 0)
            + ((rest.filter (fun x => key x = c)).map val).sum := by
      intro c
      by_cases h : key r = c
      · simp [List.filter_cons, h]
      · simp [List.filter_cons, h]
    have hmapeq :
        (keys.map (fun c =>
            (((r :: rest).filter (fun x => key x = c)).map val).sum))
          = keys.map (fun c =>
              (if key r = c then val r else 0)
                + ((rest.filter (fun x => key x = c)).map val).sum) :=
      List.map_congr_left (fun c _ => step c)
    rw [hmapeq, List.sum_map_add, sum_map_single keys hnd (key r) hc₀,
      ih hcov']
    simp

/-! ### Claim theorems -/

/-- Claim C1 (code bug): a raw row with a valid date, a non-null amount and
a *null* type is retained by `load_and_clean_transactions`, with the type
cell turned into the string "nan" — `astype(str)` stringifies the null
before `dropna` looks at the column, so the drop the docstring promises
("Drop rows missing critical values: date, amount, type") never happens for
a null type. -/
theorem null_type_row_retained :
    load_and_clean_transactions
        [⟨some ⟨2024, 1, 5⟩, some 100, none, some "A"⟩]
      = ⟨[⟨⟨2024, 1, 5⟩, 100, "nan", some "A"⟩], false⟩ := rfl

/-- Claim C2 counterexample: on the two-customer summary mapping
`[("A", 10), ("B", 10)]` (ascending ids, equal `total_spent`, exactly as
`groupby` would emit it) the Top-N Selector returns the tied customers in
the order `B`, `A` — descending, not ascending, customer id. -/
theorem topCustomers_tie_not_ascending :
    (generate_top_customers_report
        [("A", ⟨10, 1, 10⟩), ("B", ⟨10, 1, 10⟩)] 2).map
        (fun r => r.customer_id) = ["B", "A"] := by decide

/-- Claim C2 amended: among customers tied on `total_spent`, the selector
returns them in *reversed* input order (stable ascending argsort, then
reversal), so the output depends on the mapping's iteration order rather
than only on the (customer_id, total_spent) pairs: swapping two tied
entries of the input swaps them in the output. -/
theorem topCustomers_tie_reversed (a b : String × CustomerStats)
    (h : a.2.total_spent = b.2.total_spent) :
    generate_top_customers_report [a, b] 2
        = [⟨b.1, b.2.total_spent, b.2.transaction_count, b.2.avg_amount⟩,
           ⟨a.1, a.2.total_spent, a.2.transaction_count, a.2.avg_amount⟩] ∧
    generate_top_customers_report [b, a] 2
        = [⟨a.1, a.2.total_spent, a.2.transaction_count, a.2.avg_amount⟩,
           ⟨b.1, b.2.total_spent, b.2.transaction_count, b.2.avg_amount⟩] := by
  have hab : spentLE a b := le_of_eq h
  have hba : spentLE b a := le_of_eq h.symm
  constructor
  · simp [generate_top_customers_report, sortValuesDesc, dfHead,
      List.insertionSort, List.orderedInsert, hab]
  · simp [generate_top_customers_report, sortValuesDesc, dfHead,
      List.insertionSort, List.orderedInsert, hba]

/-- Witness for `topCustomers_tie_reversed` at the concrete tied mapping
`[("A", 10), ("B", 10)]`. -/
theorem topCustomers_tie_reversed_example :
    (("A", (⟨10, 1, 10⟩ : CustomerStats)).2.total_spent
        = (("B", (⟨10, 1, 10⟩ : CustomerStats)).2.total_spent)) ∧
    (generate_top_customers_report
        [("A", ⟨10, 1, 10⟩), ("B", ⟨10, 1, 10⟩)] 2
        = [⟨"B", 10, 1, 10⟩, ⟨"A", 10, 1, 10⟩] ∧
      generate_top_customers_report
        [("B", ⟨10, 1, 10⟩), ("A", ⟨10, 1, 10⟩)] 2
        = [⟨"A", 10, 1, 10⟩, ⟨"B", 10, 1, 10⟩]) :=
  ⟨rfl, topCustomers_tie_reversed ("A", ⟨10, 1, 10⟩) ("B", ⟨10, 1, 10⟩) rfl⟩

/-- Claim C3 counterexample: called with `n = 0` the Top-N Selector raises
no error; it returns the empty table (`head(0)` is the empty slice). -/
theorem topCustomers_zero_returns_empty :
    generate_top_customers_report [("A", ⟨10, 1, 10⟩)] 0 = [] := rfl

/-- Claim C3 amended: a non-positive `n` is not rejected:
`generate_top_customers_report` is total and silently returns a table — of
length at most the number of entries — and for `n = 0` exactly the empty
table (`head` slices instead of validating). -/
theorem topCustomers_nonpositive_no_error
    (l : List (String × CustomerStats)) (n : Int) (_h : n ≤ 0) :
    (generate_top_customers_report l n).length ≤ l.length ∧
    generate_top_customers_report l 0 = [] := by
  constructor
  · have hlen : (sortValuesDesc l).length = l.length := by
      simp [sortValuesDesc, List.length_insertionSort]
    unfold generate_top_customers_report dfHead
    split
    · simp only [List.length_map, List.length_take, hlen]
      exact min_le_right _ _
    · simp only [List.length_map, List.length_take, hlen]
      exact le_trans (min_le_left _ _) (Nat.sub_le _ _)
  · rfl

/-- Witness for `topCustomers_nonpositive_no_error` at the one-entry
mapping and `n = -1`. -/
theorem topCustomers_nonpositive_no_error_example :
    ((-1 : Int) ≤ 0) ∧
    ((generate_top_customers_report [("A", ⟨10, 1, 10⟩)] (-1)).length ≤ 1 ∧
      generate_top_customers_report
        ([("A", ⟨10, 1, 10⟩)] : List (String × CustomerStats)) 0 = []) :=
  ⟨by decide,
    topCustomers_nonpositive_no_error [("A", ⟨10, 1, 10⟩)] (-1) (by decide)⟩

/-- Claim C9 counterexample: the monthly aggregator hands back a *changed*
dataframe: on a concrete one-row cleaned dataset the `year_month` column is
absent before the call and present after it, so the dataset does not have
exactly the columns it had before. -/
theorem monthly_mutates_df :
    (generate_monthly_summary_report
        ⟨[⟨⟨2024, 1, 5⟩, 5, "credit", some "A"⟩], false⟩).1
      ≠ ⟨[⟨⟨2024, 1, 5⟩, 5, "credit", some "A"⟩], false⟩ := by decide

/-- Claim C9 amended: every aggregator leaves the *rows* of the cleaned
dataset unchanged, and the overall and customer aggregators leave the
dataframe entirely unchanged; the monthly aggregator alone mutates it, by
writing the derived `year_month` column in place. -/
theorem aggregators_preserve_rows (df : CleanedDF) :
    (generate_overall_financial_summary df).1 = df ∧
    (generate_customer_summary df).1 = df ∧
    (generate_monthly_summary_report df).1.rows = df.rows ∧
    (generate_monthly_summary_report df).1.hasYearMonth = true :=
  ⟨rfl, rfl, rfl, rfl⟩

/-- Claim C7: on an empty cleaned dataset the overall summary has zero
transactions and zero credit, debit and net sums, while the mean, maximum
and minimum are the distinguishable no-value marker `none` (pandas `NaN`),
not the number 0; the monthly and customer mappings are empty. -/
theorem overall_empty_dataset (df : CleanedDF) (h : df.rows = []) :
    (generate_overall_financial_summary df).2.total_transactions = 0 ∧
    (generate_overall_financial_summary df).2.total_credit = 0 ∧
    (generate_overall_financial_summary df).2.total_debit = 0 ∧
    (generate_overall_financial_summary df).2.net_amount = 0 ∧
    (generate_overall_financial_summary df).2.avg_amount = none ∧
    (generate_overall_financial_summary df).2.max_amount = none ∧
    (generate_overall_financial_summary df).2.min_amount = none ∧
    (generate_monthly_summary_report df).2 = [] ∧
    (generate_customer_summary df).2 = [] := by
  simp [generate_overall_financial_summary, generate_monthly_summary_report,
    generate_customer_summary, monthKeys, customerKeys, h,
    List.insertionSort]

/-- Witness for `overall_empty_dataset` at the concrete empty dataframe. -/
theorem overall_empty_dataset_example :
    ((⟨[], false⟩ : CleanedDF).rows = []) ∧
    ((generate_overall_financial_summary ⟨[], false⟩).2.total_transactions
        = 0 ∧
      (generate_overall_financial_summary ⟨[], false⟩).2.total_credit = 0 ∧
      (generate_overall_financial_summary ⟨[], false⟩).2.total_debit = 0 ∧
      (generate_overall_financial_summary ⟨[], false⟩).2.net_amount = 0 ∧
      (generate_overall_financial_summary ⟨[], false⟩).2.avg_amount = none ∧
      (generate_overall_financial_summary ⟨[], false⟩).2.max_amount = none ∧
      (generate_overall_financial_summary ⟨[], false⟩).2.min_amount = none ∧
      (generate_monthly_summary_report (⟨[], false⟩ : CleanedDF)).2 = [] ∧
      (generate_customer_summary (⟨[], false⟩ : CleanedDF)).2 = []) :=
  ⟨rfl, overall_empty_dataset ⟨[], false⟩ rfl⟩

/-- Claim C4: for every cleaned dataset the overall summary satisfies
`net_amount = total_credit + total_debit` exactly, where `total_credit`
sums precisely the strictly positive amounts, `total_debit` precisely the
strictly negative ones, and every row — zero amounts included — is counted
in `total_transactions`. -/
theorem overall_net_eq_credit_add_debit (df : CleanedDF) :
    (generate_overall_financial_summary df).2.net_amount
        = (generate_overall_financial_summary df).2.total_credit
          + (generate_overall_financial_summary df).2.total_debit ∧
    (generate_overall_financial_summary df).2.total_credit
        = ((df.rows.map (fun r => r.amount)).filter (fun a => 0 < a)).sum ∧
    (generate_overall_financial_summary df).2.total_debit
        = ((df.rows.map (fun r => r.amount)).filter (fun a => a < 0)).sum ∧
    (generate_overall_financial_summary df).2.total_transactions
        = df.rows.length :=
  ⟨sum_eq_pos_add_neg _, rfl, rfl, rfl⟩

/-- The customer summary's `total_spent` column sums to the total amount of
the rows that carry a non-null `customer_id`: `groupby` partitions exactly
those rows. -/
theorem customer_spent_sum (df : CleanedDF) :
    ((generate_customer_summary df).2.map (fun p => p.2.total_spent)).sum
      = ((df.rows.filter (fun r => r.customer_id.isSome)).map
          (fun r => r.amount)).sum := by
  have hperm : (customerKeys df.rows).Perm
      ((df.rows.filterMap (fun r => r.customer_id)).dedup) :=
    List.perm_insertionSort _ _
  have hnd : ((df.rows.filterMap (fun r => r.customer_id)).dedup).Nodup :=
    List.nodup_dedup _
  have hcov : ∀ r ∈ df.rows, ∀ c, r.customer_id = some c →
      c ∈ (df.rows.filterMap (fun r => r.customer_id)).dedup := by
    intro r hr c hc
    exact List.mem_dedup.mpr (List.mem_filterMap.mpr ⟨r, hr, hc⟩)
  calc ((generate_customer_summary df).2.map (fun p => p.2.total_spent)).sum
      = ((customerKeys df.rows).map (fun c =>
          ((df.rows.filter (fun r => r.customer_id = some c)).map
            (fun r => r.amount)).sum)).sum := by
        simp only [generate_customer_summary, List.map_map]
        rfl
    _ = (((df.rows.filterMap (fun r => r.customer_id)).dedup).map (fun c =>
          ((df.rows.filter (fun r => r.customer_id = some c)).map
            (fun r => r.amount)).sum)).sum := (hperm.map _).sum_eq
    _ = ((df.rows.filter (fun r => r.customer_id.isSome)).map
          (fun r => r.amount)).sum :=
        sum_groups (fun r => r.customer_id) (fun r => r.amount) _ hnd
          df.rows hcov

/-- The customer summary's `transaction_count` column sums to the number of
rows that carry a non-null `customer_id`. -/
theorem customer_count_sum (df : CleanedDF) :
    ((generate_customer_summary df).2.map
        (fun p => p.2.transaction_count)).sum
      = (df.rows.filter (fun r => r.customer_id.isSome)).length := by
  have hperm : (customerKeys df.rows).Perm
      ((df.rows.filterMap (fun r => r.customer_id)).dedup) :=
    List.perm_insertionSort _ _
  have hnd : ((df.rows.filterMap (fun r => r.customer_id)).dedup).Nodup :=
    List.nodup_dedup _
  have hcov : ∀ r ∈ df.rows, ∀ c, r.customer_id = some c →
      c ∈ (df.rows.filterMap (fun r => r.customer_id)).dedup := by
    intro r hr c hc
    exact List.mem_dedup.mpr (List.mem_filterMap.mpr ⟨r, hr, hc⟩)
  calc ((generate_customer_summary df).2.map
        (fun p => p.2.transaction_count)).sum
      = ((customerKeys df.rows).map (fun c =>
          ((df.rows.filter (fun r => r.customer_id = some c)).map
            (fun _ => (1 : Nat))).sum)).sum := by
        simp only [generate_customer_summary, List.map_map]
        apply congrArg
        apply List.map_congr_left
        intro c _
        simp [sum_map_const_one]
    _ = (((df.rows.filterMap (fun r => r.customer_id)).dedup).map (fun c =>
          ((df.rows.filter (fun r => r.customer_id = some c)).map
            (fun _ => (1 : Nat))).sum)).sum := (hperm.map _).sum_eq
    _ = ((df.rows.filter (fun r => r.customer_id.isSome)).map
          (fun _ => (1 : Nat))).sum :=
        sum_groups (fun r => r.customer_id) (fun _ => (1 : Nat)) _ hnd
          df.rows hcov
    _ = (df.rows.filter (fun r => r.customer_id.isSome)).length :=
        sum_map_const_one _

/-- The monthly summary's `transaction_count` column sums to the total
number of cleaned rows: every row has a date, so the month buckets cover
the whole dataset. -/
theorem monthly_count_sum (df : CleanedDF) :
    ((generate_monthly_summary_report df).2.map
        (fun p => p.2.transaction_count)).sum = df.rows.length := by
  have hperm : (monthKeys df.rows).Perm
      ((df.rows.map (fun r => to_period_M r.date)).dedup) :=
    List.perm_insertionSort _ _
  have hnd : ((df.rows.map (fun r => to_period_M r.date)).dedup).Nodup :=
    List.nodup_dedup _
  have hcov : ∀ r ∈ df.rows,
      to_period_M r.date
        ∈ (df.rows.map (fun r => to_period_M r.date)).dedup := by
    intro r hr
    exact List.mem_dedup.mpr (List.mem_map_of_mem _ hr)
  calc ((generate_monthly_summary_report df).2.map
        (fun p => p.2.transaction_count)).sum
      = ((monthKeys df.rows).map (fun m =>
          ((df.rows.filter (fun r => to_period_M r.date = m)).map
            (fun _ => (1 : Nat))).sum)).sum := by
        simp only [generate_monthly_summary_report, List.map_map]
        apply congrArg
        apply List.map_congr_left
        intro m _
        simp [sum_map_const_one]
    _ = (((df.rows.map (fun r => to_period_M r.date)).dedup).map (fun m =>
          ((df.rows.filter (fun r => to_period_M r.date = m)).map
            (fun _ => (1 : Nat))).sum)).sum := (hperm.map _).sum_eq
    _ = (df.rows.map (fun _ => (1 : Nat))).sum :=
        sum_groups_total (fun r => to_period_M r.date) (fun _ => (1 : Nat))
          _ hnd df.rows hcov
    _ = df.rows.length := sum_map_const_one _

/-- Claim C5 counterexample: on the concrete cleaned dataset with a single
row of amount 5 whose `customer_id` is null, the customer summary is empty,
so the sum of `total_spent` over all customers is 0 while the overall
`net_amount` is 5. -/
theorem customer_sum_misses_null_id :
    ¬ (((generate_customer_summary
          ⟨[⟨⟨2024, 1, 5⟩, 5, "credit", none⟩], false⟩).2.map
          (fun p => p.2.total_spent)).sum
        = (generate_overall_financial_summary
            ⟨[⟨⟨2024, 1, 5⟩, 5, "credit", none⟩], false⟩).2.net_amount) := by
  have h1 : ((generate_customer_summary
      ⟨[⟨⟨2024, 1, 5⟩, 5, "credit", none⟩], false⟩).2.map
      (fun p => p.2.total_spent)).sum = (0 : Rat) := rfl
  have h2 : (generate_overall_financial_summary
      ⟨[⟨⟨2024, 1, 5⟩, 5, "credit", none⟩], false⟩).2.net_amount
      = (5 : Rat) := by
    show (5 : Rat) + 0 = 5
    exact add_zero 5
  rw [h1, h2]
  norm_num

/-- Claim C5 amended: the customer summary's `total_spent` values sum to
the overall `net_amount` whenever every cleaned row carries a non-null
`customer_id`; in general they sum to the net amount of exactly the rows
with a non-null `customer_id`, because `groupby` silently drops null
keys. -/
theorem customer_sum_eq_net_of_ids (df : CleanedDF)
    (h : ∀ r ∈ df.rows, r.customer_id.isSome) :
    ((generate_customer_summary df).2.map (fun p => p.2.total_spent)).sum
      = (generate_overall_financial_summary df).2.net_amount := by
  rw [customer_spent_sum]
  have hf : df.rows.filter (fun r => r.customer_id.isSome) = df.rows :=
    List.filter_eq_self.mpr h
  rw [hf]
  rfl

/-- Witness for `customer_sum_eq_net_of_ids` on a concrete two-row dataset
whose rows all carry customer ids. -/
theorem customer_sum_eq_net_of_ids_example :
    (∀ r ∈ (⟨[⟨⟨2024, 1, 5⟩, 100, "credit", some "A"⟩,
              ⟨⟨2024, 2, 1⟩, -40, "debit", some "B"⟩], false⟩ :
          CleanedDF).rows, r.customer_id.isSome) ∧
    ((generate_customer_summary
        ⟨[⟨⟨2024, 1, 5⟩, 100, "credit", some "A"⟩,
          ⟨⟨2024, 2, 1⟩, -40, "debit", some "B"⟩], false⟩).2.map
        (fun p => p.2.total_spent)).sum
      = (generate_overall_financial_summary
          ⟨[⟨⟨2024, 1, 5⟩, 100, "credit", some "A"⟩,
            ⟨⟨2024, 2, 1⟩, -40, "debit", some "B"⟩], false⟩).2.net_amount :=
  ⟨by decide, customer_sum_eq_net_of_ids _ (by decide)⟩

/-- Claim C6: the monthly buckets partition the cleaned dataset: their
`transaction_count`s sum to the overall `total_transactions`, the month
keys are pairwise distinct, and no empty bucket appears. -/
theorem monthly_counts_partition (df : CleanedDF) :
    ((generate_monthly_summary_report df).2.map
        (fun p => p.2.transaction_count)).sum
      = (generate_overall_financial_summary df).2.total_transactions ∧
    ((generate_monthly_summary_report df).2.map (fun p => p.1)).Nodup ∧
    ((generate_monthly_summary_report df).2.all
        (fun p => decide (0 < p.2.transaction_count))) = true := by
  refine ⟨monthly_count_sum df, ?_, ?_⟩
  · have hnd : (monthKeys df.rows).Nodup :=
      ((List.perm_insertionSort _ _).nodup_iff).mpr (List.nodup_dedup _)
    simp only [generate_monthly_summary_report, List.map_map]
    show ((monthKeys df.rows).map (fun m => m)).Nodup
    rw [List.map_id']
    exact hnd
  · rw [List.all_eq_true]
    intro p hp
    simp only [generate_monthly_summary_report, List.mem_map] at hp
    obtain ⟨m, hm, rfl⟩ := hp
    rw [monthKeys] at hm
    have hmem : m ∈ (df.rows.map (fun r => to_period_M r.date)).dedup :=
      ((List.perm_insertionSort _ _).mem_iff).mp hm
    obtain ⟨r, hr, hrm⟩ := List.mem_map.mp (List.mem_dedup.mp hmem)
    have hrf : r ∈ df.rows.filter (fun x => to_period_M x.date = m) :=
      List.mem_filter.mpr ⟨hr, by simp [hrm]⟩
    show decide (0 < ((df.rows.filter
        (fun x => to_period_M x.date = m)).map (fun r => r.amount)).length)
      = true
    rw [decide_eq_true_eq, List.length_map]
    exact List.length_pos_of_mem hrf

/-- Claim C10: cleaning never checks `customer_id` (a row is kept exactly
when its date and amount are non-null), and a retained row with a null
`customer_id` is counted in the overall `total_transactions` and in the
monthly counts but in no customer-summary bucket: the customer counts sum
to the number of rows whose `customer_id` is non-null. -/
theorem null_customer_counted_elsewhere (r : RawRow) (df : CleanedDF) :
    (cleanRow r).isSome = (r.date.isSome && r.amount.isSome) ∧
    ((generate_customer_summary df).2.map
        (fun p => p.2.transaction_count)).sum
      = (df.rows.filter (fun row => row.customer_id.isSome)).length ∧
    (generate_overall_financial_summary df).2.total_transactions
      = df.rows.length ∧
    ((generate_monthly_summary_report df).2.map
        (fun p => p.2.transaction_count)).sum = df.rows.length := by
  refine ⟨?_, customer_count_sum df, rfl, monthly_count_sum df⟩
  rcases r with ⟨d, a, t, c⟩
  cases d <;> cases a <;> rfl

/-- Claim C8: for a customer summary mapping with pairwise-distinct
customer keys and positive `n`, the Top-N Selector's output has length
exactly `min n (number of distinct customers)`, and for every positive `k`
the top-`k` table is the first `k` entries of the top-`(k+1)` table. -/
theorem topCustomers_length_take_law (l : List (String × CustomerStats))
    (n k : Int) (hn : 0 < n) (hk : 0 < k)
    (hnd : (l.map Prod.fst).Nodup) :
    (generate_top_customers_report l n).length
        = min n.toNat ((l.map Prod.fst).dedup.length) ∧
    generate_top_customers_report l k
        = (generate_top_customers_report l (k + 1)).take k.toNat := by
  have hs : (sortValuesDesc l).length = l.length := by
    simp [sortValuesDesc, List.length_insertionSort]
  have hd : ((l.map Prod.fst).dedup).length = l.length := by
    rw [hnd.dedup, List.length_map]
  constructor
  · unfold generate_top_customers_report dfHead
    rw [if_pos hn.le]
    simp only [List.length_map, List.length_take, hs, hd]
  · unfold generate_top_customers_report dfHead
    rw [if_pos hk.le, if_pos (by linarith : (0 : Int) ≤ k + 1),
      ← List.map_take, List.take_take,
      min_eq_left (Int.toNat_le_toNat (by linarith : k ≤ k + 1))]

/-- Witness for `topCustomers_length_take_law` on a concrete two-customer
mapping with `n = k = 1`. -/
theorem topCustomers_length_take_law_example :
    ((0 : Int) < 1 ∧ (0 : Int) < 1 ∧
      (([("A", (⟨10, 1, 10⟩ : CustomerStats)), ("B", ⟨7, 1, 7⟩)].map
          Prod.fst).Nodup)) ∧
    ((generate_top_customers_report
        [("A", ⟨10, 1, 10⟩), ("B", ⟨7, 1, 7⟩)] 1).length
        = min (1 : Int).toNat
            (([("A", (⟨10, 1, 10⟩ : CustomerStats)),
               ("B", ⟨7, 1, 7⟩)].map Prod.fst).dedup.length) ∧
      generate_top_customers_report
          [("A", ⟨10, 1, 10⟩), ("B", ⟨7, 1, 7⟩)] 1
        = (generate_top_customers_report
            [("A", ⟨10, 1, 10⟩), ("B", ⟨7, 1, 7⟩)] (1 + 1)).take
            (1 : Int).toNat) :=
  ⟨⟨by decide, by decide, by decide⟩,
    topCustomers_length_take_law [("A", ⟨10, 1, 10⟩), ("B", ⟨7, 1, 7⟩)] 1 1
      (by decide) (by decide) (by decide)⟩
